/-
  Verification of the financial-summary aggregation engine and goal ledger of
  the fintrack-genz-vision repository (a React personal-finance dashboard).

  Shallow embedding conventions:
  * JS numbers carrying monetary amounts are modelled as `ℚ` (the code only
    adds, subtracts, multiplies and divides them).
  * Timestamps are modelled as integer milliseconds since the Unix epoch
    (`ℤ`); `Date.setHours(0,0,0,0)` / `setHours(23,59,59,999)` become the
    millisecond bounds of the calendar day containing the instant, days being
    the half-open intervals `[d*86400000, (d+1)*86400000)`.
  * React state updates (`setGoals`, `setError`) become pure functions
    returning the new collection together with an optional error string.
-/
import Mathlib

namespace FinTrack

/-- Transaction type: the `type` field of a transaction, `'income' | 'expense'`
    (Dashboard.tsx line 350). -/
inductive TxType where
  | income
  | expense
deriving DecidableEq, Repr

/-- Transaction record (Dashboard.tsx lines 347-354): `id`, `category`,
    `type`, `amount`, `timestamp`, `description`.  `timestamp` is ISO string
    in the source and is modelled as epoch milliseconds. -/
structure Transaction where
  id : String
  category : String
  type : TxType
  amount : ℚ
  timestamp : ℤ
  description : String
deriving DecidableEq, Repr

/-- The `balance` in `calculateSummary` (Dashboard.tsx lines 424-426):
    `transactions.reduce((sum, t) => sum + (t.type === 'income' ? t.amount : -t.amount), 0)`. -/
def computeBalance (transactions : List Transaction) : ℚ :=
  transactions.foldl
    (fun sum t => sum + (if t.type = TxType.income then t.amount else -t.amount)) 0

/-- Sum of amounts of the income-type transactions of a list. -/
def incomeSum (transactions : List Transaction) : ℚ :=
  ((transactions.filter (fun t => t.type = TxType.income)).map
    (fun t => t.amount)).sum

/-- Sum of amounts of the expense-type transactions of a list. -/
def expenseSum (transactions : List Transaction) : ℚ :=
  ((transactions.filter (fun t => t.type = TxType.expense)).map
    (fun t => t.amount)).sum

/-- The `savingsRate` as computed in `calculateSummary` (Dashboard.tsx line 423)
    and in `calculateAnalytics` (part_004 line 212):
    `totalIncome > 0 ? ((totalIncome - totalExpenses) / totalIncome) * 100 : 0`. -/
def computeSavingsRate (income expense : ℚ) : ℚ :=
  if 0 < income then (income - expense) / income * 100 else 0

/-! ### Calendar-day arithmetic

The streak loop in `calculateSummary` (Dashboard.tsx lines 427-449) inspects,
for each of the 30 most recent calendar days, the window
`[checkDate.setHours(0,0,0,0), checkDate.setHours(23,59,59,999)]` and asks
whether some transaction's timestamp lies inside it. -/

/-- Milliseconds per calendar day. -/
def msPerDay : ℤ := 86400000

/-- First millisecond of calendar day number `d` (what
    `setHours(0, 0, 0, 0)` produces for an instant of that day). -/
def dayStart (d : ℤ) : ℤ := d * msPerDay

/-- Last millisecond of calendar day number `d` (what
    `setHours(23, 59, 59, 999)` produces for an instant of that day). -/
def dayEnd (d : ℤ) : ℤ := d * msPerDay + 86399999

/-- Calendar-day number containing the instant `t` (floor division of the
    epoch-millisecond timestamp by the length of a day). -/
def dayOf (t : ℤ) : ℤ := t.fdiv msPerDay

/-- The `transactions.some(t => txDate >= dayStart && txDate <= dayEnd)` for the
    day window of day `d` (Dashboard.tsx lines 438-441). -/
def hasTxOnDay (transactions : List Transaction) (d : ℤ) : Bool :=
  transactions.any (fun t => dayStart d ≤ t.timestamp && t.timestamp ≤ dayEnd d)

/-- The streak loop body (Dashboard.tsx lines 429-449).  `d` is the calendar
    day currently inspected (`today - i` in the source), `first` records
    whether this is iteration `i = 0` (the only iteration on which a missing
    transaction does not break the loop), `fuel` is the number of remaining
    iterations (30 at the start), `acc` the streak counted so far. -/
def streakGo (transactions : List Transaction) :
    ℤ → Bool → ℕ → ℕ → ℕ
  | _, _, 0, acc => acc
  | d, first, fuel + 1, acc =>
    if hasTxOnDay transactions d then
      streakGo transactions (d - 1) false fuel (acc + 1)
    else if first then
      streakGo transactions (d - 1) false fuel acc
    else acc

/-- The `streak` of `calculateSummary` (Dashboard.tsx lines 427-449): a 30-pass
    loop over the calendar days `today, today-1, …, today-29`, incrementing on
    any day with a transaction and breaking on the first empty day other than
    today itself. -/
def computeStreak (transactions : List Transaction) (now : ℤ) : ℕ :=
  streakGo transactions (dayOf now) true 30 0

/-- Count of consecutive calendar days with at least one transaction, walking
    strictly backward starting at day `d`, with an explicit recursion bound
    `fuel`; `specStreak` instantiates `fuel` large enough that it never
    truncates the count. -/
def runFrom (transactions : List Transaction) : ℤ → ℕ → ℕ
  | _, 0 => 0
  | d, fuel + 1 =>
    if hasTxOnDay transactions d then runFrom transactions (d - 1) fuel + 1
    else 0

/-- Modelled from the spec: `computeStreak(transactions, now)` "counts the
    number of consecutive calendar days — walking backward from now — for
    which at least one transaction's timestamp falls within that day, stopping
    at the first gap day (excluding today from being required to have a
    transaction before counting starts)".  The count of consecutive non-empty
    days can never exceed the number of transactions, so the recursion bound
    `max (length + 1) 30` never truncates it. -/
def specStreak (transactions : List Transaction) (now : ℤ) : ℕ :=
  let today := dayOf now
  if hasTxOnDay transactions today then
    runFrom transactions today (max (transactions.length + 1) 30)
  else
    runFrom transactions (today - 1) (max (transactions.length + 1) 30)

/-! ### Goal ledger (GoalsContext.tsx)

The provider keeps `goals : Goal[]` plus an `error : string | null` cell.
Each operation is embedded as a pure function from the current goal list (and
the `new Date()` instant, passed explicitly as `now`) to the new goal list
together with the value `setError` receives: `none` mirrors `setError(null)`,
`some msg` mirrors `setError(msg)`. -/

/-- Goal record (GoalsContext.tsx lines 25-38). `deadline`, `createdAt`,
    `updatedAt` are `Date`s, modelled as epoch milliseconds. -/
structure Goal where
  id : String
  title : String
  description : String
  target : ℚ
  current : ℚ
  deadline : ℤ
  category : String
  icon : String
  color : String
  isAchieved : Bool
  createdAt : ℤ
  updatedAt : ℤ
deriving DecidableEq, Repr

/-- The `CreateGoalData` (GoalsContext.tsx lines 42-50): goal data without the
    generated fields. -/
structure CreateGoalData where
  title : String
  description : String
  target : ℚ
  deadline : ℤ
  category : String
  icon : String
  color : String
deriving DecidableEq, Repr

/-- The `UpdateGoalData` (GoalsContext.tsx lines 55-58):
    `Partial<CreateGoalData> & {current?, isAchieved?}`.  A `none` field is
    absent from the update object and leaves the goal's field unchanged. -/
structure UpdateGoalData where
  title : Option String := none
  description : Option String := none
  target : Option ℚ := none
  deadline : Option ℤ := none
  category : Option String := none
  icon : Option String := none
  color : Option String := none
  current : Option ℚ := none
  isAchieved : Option Bool := none
deriving DecidableEq, Repr

/-- The `addGoal` (GoalsContext.tsx lines 192-209): appends a new goal with
    `current = 0`, `isAchieved = false` and fresh timestamps.  `freshId`
    stands for the `Date.now() + random` id the source generates. -/
def addGoal (goals : List Goal) (goalData : CreateGoalData) (freshId : String)
    (now : ℤ) : List Goal × Option String :=
  (goals ++ [{ id := freshId
               title := goalData.title
               description := goalData.description
               target := goalData.target
               deadline := goalData.deadline
               category := goalData.category
               icon := goalData.icon
               color := goalData.color
               current := 0
               isAchieved := false
               createdAt := now
               updatedAt := now }], none)

/-- The spread `{ ...goal, ...updates, updatedAt: new Date() }` of
    `updateGoal` (GoalsContext.tsx line 220): every field present in
    `updates` overrides the goal's, and `updatedAt` is stamped. -/
def mergeGoal (goal : Goal) (updates : UpdateGoalData) (now : ℤ) : Goal :=
  { id := goal.id
    title := updates.title.getD goal.title
    description := updates.description.getD goal.description
    target := updates.target.getD goal.target
    deadline := updates.deadline.getD goal.deadline
    category := updates.category.getD goal.category
    icon := updates.icon.getD goal.icon
    color := updates.color.getD goal.color
    current := updates.current.getD goal.current
    isAchieved := updates.isAchieved.getD goal.isAchieved
    createdAt := goal.createdAt
    updatedAt := now }

/-- The `updateGoal` (GoalsContext.tsx lines 216-230): maps over the goals,
    merging `updates` into every goal whose id matches, and clears the error
    cell.  No existence check is performed. -/
def updateGoal (goals : List Goal) (id : String) (updates : UpdateGoalData)
    (now : ℤ) : List Goal × Option String :=
  (goals.map (fun goal =>
    if goal.id = id then mergeGoal goal updates now else goal), none)

/-- The `deleteGoal` (GoalsContext.tsx lines 236-244):
    `prevGoals.filter(goal => goal.id !== id)`, error cleared. -/
def deleteGoal (goals : List Goal) (id : String) : List Goal × Option String :=
  (goals.filter (fun goal => goal.id ≠ id), none)

/-- The `addMoneyToGoal` (GoalsContext.tsx lines 251-278): rejects `amount <= 0`
    with the invalid-amount error, leaving the goals untouched; otherwise adds
    `amount` to the matching goal's `current`, recomputes
    `isAchieved = newCurrent >= target` and stamps `updatedAt`. -/
def addMoneyToGoal (goals : List Goal) (id : String) (amount : ℚ)
    (now : ℤ) : List Goal × Option String :=
  if amount ≤ 0 then
    (goals, some "Amount must be greater than 0")
  else
    (goals.map (fun goal =>
      if goal.id = id then
        { goal with
          current := goal.current + amount
          isAchieved := decide (goal.target ≤ goal.current + amount)
          updatedAt := now }
      else goal), none)

/-- The `getTotalSaved` (GoalsContext.tsx lines 304-306):
    `goals.reduce((total, goal) => total + goal.current, 0)`. -/
def getTotalSaved (goals : List Goal) : ℚ :=
  goals.foldl (fun total goal => total + goal.current) 0

/-- The `handleAddToGoal` of the savings-goal component revision (part_003 lines
    156-164): the capped add-money variant,
    `currentAmount := Math.min(currentAmount + amount, targetAmount)`.
    Only the two amount fields matter to its behaviour; they are taken
    directly. -/
def handleAddToGoal (currentAmount targetAmount amount : ℚ) : ℚ :=
  min (currentAmount + amount) targetAmount

/-! ### Goal creation form validation (GoalDialog.tsx)

`validateForm` (GoalDialog.tsx lines 160-205) checks the five form fields and
collects one message per offending field into the `newErrors` object;
`handleSubmit` (lines 208-252) calls `addGoal` only when that object is
empty.  The `target` form field is a string run through `parseFloat`; it is
modelled as `Option ℚ`, `none` standing for an empty or unparseable entry
(both are rejected with a target-scoped message).  The `deadline` string is
likewise modelled as `Option ℤ`. -/

/-- JS whitespace test for the characters that realistically occur in form
    input (space, tab, newline, carriage return). -/
def isWsp (c : Char) : Bool :=
  c = ' ' || c = '\t' || c = '\n' || c = '\r'

/-- Model of JS `String.prototype.trim`: strip leading and trailing
    whitespace.  (Defined structurally so that concrete instances compute.) -/
def strTrim (s : String) : String :=
  ⟨((s.data.dropWhile isWsp).reverse.dropWhile isWsp).reverse⟩

/-- The form field a validation message is scoped to (the keys of the
    `newErrors` object of GoalDialog.tsx). -/
inductive GoalField where
  | title
  | description
  | target
  | category
  | deadline
deriving DecidableEq, Repr

/-- The goal dialog's form state (GoalDialog.tsx `GoalFormData`), with the
    numeric and date fields already parsed as described above. -/
structure GoalFormData where
  title : String
  description : String
  target : Option ℚ
  category : String
  deadline : Option ℤ
deriving DecidableEq, Repr

/-- The `validateForm` (GoalDialog.tsx lines 160-205).  Returns the field-scoped
    error messages; the form is valid exactly when the list is empty. -/
def validateForm (form : GoalFormData) (now : ℤ) :
    List (GoalField × String) :=
  (if (strTrim form.title) = "" then
     [(GoalField.title, "Goal title is required")]
   else if (strTrim form.title).length < 2 then
     [(GoalField.title, "Title must be at least 2 characters")]
   else if 50 < (strTrim form.title).length then
     [(GoalField.title, "Title must be less than 50 characters")]
   else []) ++
  (if (strTrim form.description) = "" then
     [(GoalField.description, "Description is required")]
   else if (strTrim form.description).length < 10 then
     [(GoalField.description, "Description must be at least 10 characters")]
   else if 200 < (strTrim form.description).length then
     [(GoalField.description, "Description must be less than 200 characters")]
   else []) ++
  (match form.target with
   | none => [(GoalField.target, "Target amount is required")]
   | some t =>
     if t ≤ 0 then
       [(GoalField.target, "Target must be a valid number greater than 0")]
     else if 1000000 < t then
       [(GoalField.target, "Target must be less than $1,000,000")]
     else []) ++
  (if form.category = "" then
     [(GoalField.category, "Please select a category")]
   else []) ++
  (match form.deadline with
   | none => [(GoalField.deadline, "Target date is required")]
   | some d =>
     if d ≤ now then [(GoalField.deadline, "Deadline must be in the future")]
     else [])

/-- The goal-creation path of `handleSubmit` in create mode (GoalDialog.tsx
    lines 208-252) composed with `addGoal`: validation failure returns the
    field-scoped errors and leaves the goal collection untouched; success
    builds the `CreateGoalData` from the trimmed fields and appends the new
    goal.  `icon`/`color` come from the category lookup table and are passed
    through. -/
def createGoal (goals : List Goal) (form : GoalFormData)
    (icon color freshId : String) (now : ℤ) :
    List Goal × Option (List (GoalField × String)) :=
  let errors := validateForm form now
  if errors = [] then
    match form.target, form.deadline with
    | some t, some d =>
      ((addGoal goals
        { title := (strTrim form.title)
          description := (strTrim form.description)
          target := t
          deadline := d
          category := form.category
          icon := icon
          color := color } freshId now).1, none)
    | _, _ =>
      -- unreachable: an empty error list forces both fields to be present
      (goals, none)
  else (goals, some errors)

/-! ### Civil calendar

`calculateSummary` needs the first of the current month
(`thisMonth.setDate(1)`) and `calculateAnalytics` groups trends by
month-and-year label; both need the proleptic Gregorian date of a day
number.  `civilFromDays` is the standard conversion from days since the Unix
epoch to `(year, month, day)`. -/

/-- Gregorian `(year, month ∈ 1..12, day ∈ 1..31)` of day number `z` (days
    since 1970-01-01). -/
def civilFromDays (z : ℤ) : ℤ × ℕ × ℕ :=
  let zsh := z + 719468
  let era := zsh.fdiv 146097
  let doe := (zsh - era * 146097).toNat
  let yoe := (doe - doe / 1460 + doe / 36524 - doe / 146096) / 365
  let doy := doe - (365 * yoe + yoe / 4 - yoe / 100)
  let mp := (5 * doy + 2) / 153
  let d := doy - (153 * mp + 2) / 5 + 1
  let m := if mp < 10 then mp + 3 else mp - 9
  ((yoe : ℤ) + era * 400 + (if m ≤ 2 then 1 else 0), m, d)

/-- Day-of-month (1-based) of the instant `t`. -/
def dayOfMonth (t : ℤ) : ℕ := (civilFromDays (dayOf t)).2.2

/-- The `(year, month)` pair of the instant `t`: the model of the
    month-and-year label `toLocaleDateString('en-US', {month, year})` used as
    grouping key by `calculateAnalytics` (part_004 lines 185-188). -/
def monthKeyOf (t : ℤ) : ℤ × ℕ :=
  let c := civilFromDays (dayOf t)
  (c.1, c.2.1)

/-- The `thisMonth` of `calculateSummary` (Dashboard.tsx lines 407-408):
    `new Date()` followed by `setDate(1)` — the same instant moved back to
    day 1 of its month with the time of day preserved. -/
def startOfMonthInstant (now : ℤ) : ℤ :=
  now - ((dayOfMonth now : ℤ) - 1) * msPerDay

/-! ### Analytics (part_004, `calculateAnalytics`)

`calculateAnalytics` (part_004 lines 148-225) starts from
`getFilteredTransactions()`; the embedding takes that filtered list as its
argument and computes the category breakdown, monthly trend series and
period totals exactly as the source loop does.  The presentational
`icon`/`color` fields of `CategoryData` are omitted. -/

/-- One row of the category breakdown (part_004 `CategoryData` lines 63-70,
    without the presentational icon/color). -/
structure CategoryData where
  category : String
  amount : ℚ
  percentage : ℚ
  transactions : ℕ
deriving DecidableEq, Repr

/-- One row of the monthly trend series (part_004 `MonthlyData`); `month` is
    the `(year, month)` grouping key. -/
structure MonthlyData where
  month : ℤ × ℕ
  income : ℚ
  expense : ℚ
  savings : ℚ
  savingsRate : ℚ
deriving DecidableEq, Repr

/-- Accumulator of the first loop of `calculateAnalytics` (part_004 lines
    152-168): the insertion-ordered `categoryMap` (category ↦ summed amount,
    transaction count) plus the running `totalIncome`/`totalExpense`. -/
structure CatAcc where
  categoryMap : List (String × ℚ × ℕ)
  totalIncome : ℚ
  totalExpense : ℚ
deriving Repr

/-- One iteration of the first loop of `calculateAnalytics` (part_004 lines
    157-168): an expense bumps its category's entry (creating it at the end
    of the map on first sight, as JS object insertion order does) and the
    expense total; anything else bumps the income total. -/
def catStep (acc : CatAcc) (t : Transaction) : CatAcc :=
  if t.type = TxType.expense then
    { acc with
      categoryMap :=
        if acc.categoryMap.any (fun e => e.1 = t.category) then
          acc.categoryMap.map (fun e =>
            if e.1 = t.category then (e.1, e.2.1 + t.amount, e.2.2 + 1) else e)
        else acc.categoryMap ++ [(t.category, t.amount, 1)]
      totalExpense := acc.totalExpense + t.amount }
  else { acc with totalIncome := acc.totalIncome + t.amount }

/-- The completed first loop of `calculateAnalytics` over the filtered
    transactions. -/
def catFold (filtered : List Transaction) : CatAcc :=
  filtered.foldl catStep { categoryMap := [], totalIncome := 0, totalExpense := 0 }

/-- The row built from one `categoryMap` entry (part_004 lines 172-179):
    `percentage = totalExpense > 0 ? amount / totalExpense * 100 : 0`. -/
def catRow (totalExpense : ℚ) (e : String × ℚ × ℕ) : CategoryData :=
  { category := e.1
    amount := e.2.1
    percentage :=
      if 0 < totalExpense then e.2.1 / totalExpense * 100 else 0
    transactions := e.2.2 }

/-- The `categoryData` (part_004 lines 171-180): each `categoryMap` entry becomes
    a row, sorted descending by amount (`.sort((a, b) => b.amount - a.amount)`). -/
def categoryData (filtered : List Transaction) : List CategoryData :=
  let acc := catFold filtered
  (acc.categoryMap.map (catRow acc.totalExpense)).mergeSort
    (fun a b => b.amount ≤ a.amount)

/-- The second loop of `calculateAnalytics` (part_004 lines 183-200): the
    insertion-ordered `monthlyMap`, keyed by month-and-year, accumulating
    income and expense per month. -/
def monthlyFold (filtered : List Transaction) :
    List ((ℤ × ℕ) × ℚ × ℚ) :=
  filtered.foldl (fun m t =>
    let key := monthKeyOf t.timestamp
    if m.any (fun e => e.1 = key) then
      m.map (fun e =>
        if e.1 = key then
          (e.1,
           (if t.type = TxType.income then e.2.1 + t.amount else e.2.1),
           (if t.type = TxType.income then e.2.2 else e.2.2 + t.amount))
        else e)
    else
      m ++ [(key,
             (if t.type = TxType.income then t.amount else 0),
             (if t.type = TxType.income then (0 : ℚ) else t.amount))]) []

/-- The `monthlyData` (part_004 lines 202-210): each month entry yields
    `savings = income - expense` and `savingsRate` (0 when income is 0),
    sorted chronologically ascending. -/
def monthlyData (filtered : List Transaction) : List MonthlyData :=
  ((monthlyFold filtered).map (fun e =>
    { month := e.1
      income := e.2.1
      expense := e.2.2
      savings := e.2.1 - e.2.2
      savingsRate := computeSavingsRate e.2.1 e.2.2 })).mergeSort
    (fun a b =>
      a.month.1 < b.month.1 ∨ (a.month.1 = b.month.1 ∧ a.month.2 ≤ b.month.2))

/-- The full result of `calculateAnalytics` (part_004 lines 212-224):
    breakdown, trends and the period totals
    `{income, expense, savings, savingsRate}`. -/
structure Analytics where
  categoryData : List CategoryData
  monthlyData : List MonthlyData
  totalIncome : ℚ
  totalExpense : ℚ
  savings : ℚ
  savingsRate : ℚ
deriving Repr

/-- The `calculateAnalytics` (part_004 lines 148-225) on the filtered
    transaction list. -/
def calculateAnalytics (filtered : List Transaction) : Analytics :=
  let acc := catFold filtered
  { categoryData := categoryData filtered
    monthlyData := monthlyData filtered
    totalIncome := acc.totalIncome
    totalExpense := acc.totalExpense
    savings := acc.totalIncome - acc.totalExpense
    savingsRate := computeSavingsRate acc.totalIncome acc.totalExpense }

/-! ### Dashboard summary (`calculateSummary`, Dashboard.tsx lines 405-511) -/

/-- Achievement state (Dashboard.tsx `Achievement`): unlock flag plus
    progress toward `maxProgress`. -/
structure Achievement where
  id : String
  title : String
  description : String
  icon : String
  unlocked : Bool
  progress : ℚ
  maxProgress : ℚ
deriving DecidableEq, Repr

/-- Savings-goal data as the dashboard reads it (Dashboard.tsx
    `SavingsGoalData`, lines 356-363). -/
structure SavingsGoalData where
  id : String
  title : String
  targetAmount : ℚ
  currentAmount : ℚ
  deadline : ℤ
  category : String
deriving DecidableEq, Repr

/-- The financial summary returned by `calculateSummary` (Dashboard.tsx
    lines 493-507). -/
structure Summary where
  totalIncome : ℚ
  totalExpenses : ℚ
  netIncome : ℚ
  savingsRate : ℚ
  balance : ℚ
  streak : ℕ
  level : ℕ
  achievements : List Achievement
  recentTransactions : List Transaction
  activeGoals : List SavingsGoalData
  totalTransactions : ℕ
  monthlyBudget : ℚ
deriving Repr

/-- The `calculateSummary` (Dashboard.tsx lines 405-511): month-window totals,
    all-time balance, 30-day streak, level, the three achievements, the five
    most recent transactions and the active goals. -/
def calculateSummary (transactions : List Transaction)
    (savingsGoals : List SavingsGoalData) (now : ℤ) : Summary :=
  let thisMonth := startOfMonthInstant now
  let monthlyTransactions :=
    transactions.filter (fun t => thisMonth ≤ t.timestamp)
  let totalIncome :=
    (monthlyTransactions.filter (fun t => t.type = TxType.income)).foldl
      (fun sum t => sum + t.amount) 0
  let totalExpenses :=
    (monthlyTransactions.filter (fun t => t.type = TxType.expense)).foldl
      (fun sum t => sum + t.amount) 0
  let balance := computeBalance transactions
  let streak := computeStreak transactions now
  { totalIncome := totalIncome
    totalExpenses := totalExpenses
    netIncome := totalIncome - totalExpenses
    savingsRate := computeSavingsRate totalIncome totalExpenses
    balance := balance
    streak := streak
    level := max 1 (transactions.length / 10)
    achievements :=
      [{ id := "1"
         title := "Saving Streak"
         description := "Track expenses for 7 days straight"
         icon := "flame"
         unlocked := decide (7 ≤ streak)
         progress := min (streak : ℚ) 7
         maxProgress := 7 },
       { id := "2"
         title := "Transaction Master"
         description := "Record 50 transactions"
         icon := "trophy"
         unlocked := decide (50 ≤ transactions.length)
         progress := min (transactions.length : ℚ) 50
         maxProgress := 50 },
       { id := "3"
         title := "Emergency Fund"
         description := "Save $1,000"
         icon := "star"
         unlocked := decide (1000 ≤ balance)
         progress := min balance 1000
         maxProgress := 1000 }]
    recentTransactions :=
      (transactions.mergeSort (fun a b => b.timestamp ≤ a.timestamp)).take 5
    activeGoals :=
      savingsGoals.filter (fun goal => goal.currentAmount < goal.targetAmount)
    totalTransactions := transactions.length
    monthlyBudget := 3500 }

/-! ### Concrete records used by witnesses and counterexamples -/

/-- A transaction of the given type/amount/timestamp. -/
def mkTx (ty : TxType) (amount : ℚ) (timestamp : ℤ) : Transaction :=
  { id := "t", category := "General", type := ty, amount := amount
    timestamp := timestamp, description := "demo" }

/-- A $1000 income dated at the epoch. -/
def demoIncome : Transaction := mkTx TxType.income 1000 0

/-- A $200 expense dated at the epoch. -/
def demoExpense : Transaction := mkTx TxType.expense 200 0

/-- Noon of epoch day 0, in milliseconds. -/
def demoNoon : ℤ := 43200000

/-- One transaction on each of today, yesterday and two days ago (midnights
    of days 0, −1, −2), with "now" at `demoNoon`. -/
def ts3 : List Transaction :=
  [mkTx TxType.expense 5 0,
   mkTx TxType.expense 5 (-86400000),
   mkTx TxType.expense 5 (-172800000)]

/-- The `ts3` plus a fourth transaction four days ago, leaving day −3 as a gap. -/
def ts4 : List Transaction := ts3 ++ [mkTx TxType.expense 5 (-345600000)]

/-- One transaction on each of the 31 consecutive days `0, −1, …, −30`. -/
def ts31 : List Transaction :=
  (List.range 31).map (fun k => mkTx TxType.expense 5 (-(k : ℤ) * 86400000))

/-- A goal at `current = 90` of a `target = 100`. -/
def demoGoal90 : Goal :=
  { id := "g1", title := "Demo", description := "demo goal", target := 100
    current := 90, deadline := 1000, category := "other", icon := "target"
    color := "primary", isAchieved := false, createdAt := 0, updatedAt := 0 }

/-- A sample analytics window: a $1000 income and two expenses, $200 on food
    and $100 on transport. -/
def demoWindow : List Transaction :=
  [{ id := "1", category := "Salary", type := TxType.income, amount := 1000
     timestamp := 0, description := "pay" },
   { id := "2", category := "Food & Dining", type := TxType.expense
     amount := 200, timestamp := 0, description := "food" },
   { id := "3", category := "Transportation", type := TxType.expense
     amount := 100, timestamp := 0, description := "bus" }]

/-- A goal form whose title is one character after trimming and whose other
    fields are valid. -/
def demoBadTitleForm : GoalFormData :=
  { title := "A", description := "a sensible description", target := some 500
    category := "travel", deadline := some 99 }

end FinTrack

namespace FinTrack

/-! ## Theorems -/

/-- Folding `+ f t` over a list starting from `init` is `init` plus the sum
    of the mapped list. -/
lemma foldl_add_eq {α : Type} (f : α → ℚ) :
    ∀ (l : List α) (init : ℚ),
      l.foldl (fun sum t => sum + f t) init = init + (l.map f).sum
  | [], init => by simp
  | t :: l, init => by
    rw [List.foldl_cons, foldl_add_eq f l (init + f t)]
    simp [add_assoc]

/-- The `computeBalance` is the sum of the signed amounts. -/
lemma computeBalance_eq_sum (ts : List Transaction) :
    computeBalance ts =
      (ts.map (fun t =>
        if t.type = TxType.income then t.amount else -t.amount)).sum := by
  simpa using foldl_add_eq
    (fun t => if t.type = TxType.income then t.amount else -t.amount) ts 0

/-- The signed-amount sum splits into income minus expense. -/
lemma signed_sum_eq (ts : List Transaction) :
    (ts.map (fun t =>
      if t.type = TxType.income then t.amount else -t.amount)).sum =
      incomeSum ts - expenseSum ts := by
  induction ts with
  | nil => simp [incomeSum, expenseSum]
  | cons t ts ih =>
    cases h : t.type <;>
      simp [incomeSum, expenseSum, List.filter_cons, h, ih] at * <;> ring_nf

/-- C1: the computed balance equals the sum of income amounts minus the sum
    of expense amounts over all transactions regardless of date (the result
    may be negative), and it is invariant under any permutation of the input
    list. -/
theorem computeBalance_correct (ts : List Transaction) :
    computeBalance ts = incomeSum ts - expenseSum ts ∧
    ∀ ts' : List Transaction, ts.Perm ts' →
      computeBalance ts = computeBalance ts' := by
  refine ⟨(computeBalance_eq_sum ts).trans (signed_sum_eq ts), ?_⟩
  intro ts' h
  rw [computeBalance_eq_sum, computeBalance_eq_sum]
  exact (h.map _).sum_eq

/-- Witness for C1 at a concrete two-transaction list and its swap. -/
theorem computeBalance_correct_witness :
    computeBalance [demoIncome, demoExpense] =
      incomeSum [demoIncome, demoExpense] -
        expenseSum [demoIncome, demoExpense] ∧
    computeBalance [demoIncome, demoExpense] =
      computeBalance [demoExpense, demoIncome] :=
  ⟨(computeBalance_correct [demoIncome, demoExpense]).1,
   (computeBalance_correct [demoIncome, demoExpense]).2
     [demoExpense, demoIncome] (List.Perm.swap demoExpense demoIncome [])⟩

/-- C2: the savings rate is 0 at zero income, otherwise
    `(income - expense) / income * 100` (negative when expenses exceed
    income); income 1000 and expense 600 give exactly 40.  The embedding is a
    total function on ℚ, so no NaN/Infinity/exception can arise. -/
theorem computeSavingsRate_correct (income expense : ℚ) (h : 0 ≤ income) :
    (income = 0 → computeSavingsRate income expense = 0) ∧
    (income ≠ 0 →
      computeSavingsRate income expense = (income - expense) / income * 100) ∧
    computeSavingsRate 1000 600 = 40 := by
  refine ⟨fun h0 => ?_, fun h0 => ?_, by norm_num [computeSavingsRate]⟩
  · simp [computeSavingsRate, h0]
  · have hpos : 0 < income := lt_of_le_of_ne h (Ne.symm h0)
    simp [computeSavingsRate, hpos]

/-- Witness for C2 at income 1000, expense 600. -/
theorem computeSavingsRate_correct_witness :
    computeSavingsRate 1000 600 = 40 :=
  (computeSavingsRate_correct 1000 600 (by norm_num)).2.2

/-- Each iteration of the streak loop adds at most one to the accumulator,
    so the result is bounded by `acc + fuel`. -/
lemma streakGo_le (ts : List Transaction) :
    ∀ (fuel : ℕ) (d : ℤ) (first : Bool) (acc : ℕ),
      streakGo ts d first fuel acc ≤ acc + fuel
  | 0, d, first, acc => by simp [streakGo]
  | fuel + 1, d, first, acc => by
    unfold streakGo
    split
    · calc streakGo ts (d - 1) false fuel (acc + 1) ≤ acc + 1 + fuel :=
            streakGo_le ts fuel (d - 1) false (acc + 1)
        _ = acc + (fuel + 1) := by omega
    · split
      · calc streakGo ts (d - 1) false fuel acc ≤ acc + fuel :=
              streakGo_le ts fuel (d - 1) false acc
          _ ≤ acc + (fuel + 1) := by omega
      · omega

/-- C10: the streak produced by the summary computation is at most 30, since
    only the 30 most recent calendar days are inspected. -/
theorem computeStreak_le_30 (ts : List Transaction) (now : ℤ) :
    computeStreak ts now ≤ 30 := by
  simpa using streakGo_le ts 30 (dayOf now) true 0

/-- Once past the first day, the streak loop is exactly the bounded
    consecutive-day count. -/
lemma streakGo_false_eq (ts : List Transaction) :
    ∀ (fuel : ℕ) (d : ℤ) (acc : ℕ),
      streakGo ts d false fuel acc = acc + runFrom ts d fuel
  | 0, d, acc => by simp [streakGo, runFrom]
  | fuel + 1, d, acc => by
    unfold streakGo runFrom
    by_cases h : hasTxOnDay ts d
    · simp only [h, if_true]
      rw [streakGo_false_eq ts fuel (d - 1) (acc + 1)]
      omega
    · simp [h]

/-- The bounded consecutive-day count with a smaller bound is the larger
    bound's count truncated at the smaller bound. -/
lemma runFrom_min (ts : List Transaction) :
    ∀ (f F : ℕ) (d : ℤ), f ≤ F →
      runFrom ts d f = min (runFrom ts d F) f
  | 0, F, d, _ => by simp [runFrom]
  | f + 1, F, d, hle => by
    obtain ⟨F', rfl⟩ : ∃ F', F = F' + 1 := ⟨F - 1, by omega⟩
    unfold runFrom
    by_cases h : hasTxOnDay ts d
    · simp only [h, if_true]
      rw [runFrom_min ts f F' (d - 1) (by omega), Nat.succ_min_succ]
    · simp [h]

/-- The streak loop's first iteration counts today when it has a transaction
    and otherwise just moves on; afterwards it is the bounded count from
    yesterday. -/
lemma computeStreak_unfold (ts : List Transaction) (now : ℤ) :
    computeStreak ts now =
      if hasTxOnDay ts (dayOf now)
      then runFrom ts (dayOf now - 1) 29 + 1
      else runFrom ts (dayOf now - 1) 29 := by
  show streakGo ts (dayOf now) true (29 + 1) 0 = _
  unfold streakGo
  by_cases h : hasTxOnDay ts (dayOf now)
  · simp only [h, if_true]
    rw [streakGo_false_eq ts 29 (dayOf now - 1) 1]
    omega
  · simp only [h]
    rw [streakGo_false_eq ts 29 (dayOf now - 1) 0]
    simp

/-- C4 (amended): the streak is the consecutive-calendar-day count walking
    backward from now — today not being required to hold a transaction —
    truncated to the 30-day inspection window: `min count 30` when today has
    a transaction and `min count 29` otherwise; the spec's concrete examples
    hold: transactions on today, yesterday and two days ago give streak 3,
    and a fourth transaction four days ago, with a gap in between, leaves
    the streak at 3. -/
theorem computeStreak_correct :
    (∀ (ts : List Transaction) (now : ℤ),
      computeStreak ts now =
        if hasTxOnDay ts (dayOf now)
        then min (specStreak ts now) 30
        else min (specStreak ts now) 29) ∧
    computeStreak ts3 demoNoon = 3 ∧
    computeStreak ts4 demoNoon = 3 := by
  refine ⟨fun ts now => ?_, by decide, by decide⟩
  rw [computeStreak_unfold]
  by_cases h : hasTxOnDay ts (dayOf now)
  · simp only [h, if_true, specStreak]
    obtain ⟨F', hF'⟩ : ∃ F', max (ts.length + 1) 30 = F' + 1 :=
      ⟨max (ts.length + 1) 30 - 1, by omega⟩
    have h29 : 29 ≤ F' := by
      have := le_max_right (ts.length + 1) 30
      omega
    rw [hF']
    rw [show runFrom ts (dayOf now) (F' + 1)
          = if hasTxOnDay ts (dayOf now)
            then runFrom ts (dayOf now - 1) F' + 1 else 0 from rfl]
    simp only [h, if_true]
    rw [show (30 : ℕ) = 29 + 1 from rfl, Nat.succ_min_succ,
      ← runFrom_min ts 29 F' (dayOf now - 1) h29]
  · simp only [h, if_false, specStreak]
    have h29 : 29 ≤ max (ts.length + 1) 30 := by
      have := le_max_right (ts.length + 1) 30
      omega
    simp only [Bool.false_eq_true, if_false]
    rw [← runFrom_min ts 29 (max (ts.length + 1) 30) (dayOf now - 1) h29]

/-- C4 counterexample: with a transaction on each of the 31 consecutive days
    `0, −1, …, −30`, the backward-walking consecutive-day count is 31 but
    the computed streak is 30 — the loop never inspects more than 30 days,
    so the claim's unbounded description does not hold as stated. -/
theorem computeStreak_cap_counterexample :
    computeStreak ts31 demoNoon = 30 ∧ specStreak ts31 demoNoon = 31 ∧
    computeStreak ts31 demoNoon ≠ specStreak ts31 demoNoon := by decide

/-- C5: add-money rejects non-positive amounts with the invalid-amount error
    and leaves every goal unchanged; a positive amount on an existing goal
    adds exactly `amount` to its `current`, sets `isAchieved` exactly when
    the new current reaches the target, and stamps `updatedAt`; for a goal
    with target 100 and current 90, adding 20 gives current 110 (the goal
    context is uncapped) with `isAchieved` true, while the capped component
    revision gives 100. -/
theorem addMoneyToGoal_correct :
    (∀ (goals : List Goal) (id : String) (amount : ℚ) (now : ℤ),
      amount ≤ 0 →
        addMoneyToGoal goals id amount now =
          (goals, some "Amount must be greater than 0")) ∧
    (∀ (goals : List Goal) (id : String) (amount : ℚ) (now : ℤ) (g : Goal),
      0 < amount → g ∈ goals → g.id = id →
        { g with
          current := g.current + amount
          isAchieved := decide (g.target ≤ g.current + amount)
          updatedAt := now } ∈ (addMoneyToGoal goals id amount now).1) ∧
    (addMoneyToGoal [demoGoal90] "g1" 20 7).1.map
      (fun g => (g.current, g.isAchieved)) = [(110, true)] ∧
    handleAddToGoal 90 100 20 = 100 := by
  refine ⟨fun goals id amount now h => ?_, fun goals id amount now g h hg hid => ?_,
    ?_, ?_⟩
  · rw [addMoneyToGoal, if_pos h]
  · rw [addMoneyToGoal, if_neg (not_le.mpr h)]
    have := List.mem_map_of_mem
      (fun goal => if goal.id = id then
        { goal with
          current := goal.current + amount
          isAchieved := decide (goal.target ≤ goal.current + amount)
          updatedAt := now } else goal) hg
    simpa [hid] using this
  · norm_num [addMoneyToGoal, demoGoal90]
  · norm_num [handleAddToGoal, min_def]

/-- Witness for C5: a concrete rejected negative amount and a concrete
    successful addition. -/
theorem addMoneyToGoal_correct_witness :
    addMoneyToGoal [demoGoal90] "g1" (-5) 7 =
      ([demoGoal90], some "Amount must be greater than 0") ∧
    { demoGoal90 with
      current := demoGoal90.current + 20
      isAchieved := decide (demoGoal90.target ≤ demoGoal90.current + 20)
      updatedAt := 7 } ∈ (addMoneyToGoal [demoGoal90] "g1" 20 7).1 :=
  ⟨addMoneyToGoal_correct.1 [demoGoal90] "g1" (-5) 7 (by norm_num),
   addMoneyToGoal_correct.2.1 [demoGoal90] "g1" 20 7 demoGoal90 (by norm_num)
     (List.mem_singleton.mpr rfl) rfl⟩

/-- C7: goal deletion never reports an error, deleting an absent id leaves
    the collection unchanged, and deleting the same id twice leaves the
    collection identical to its state after the first deletion. -/
theorem deleteGoal_idempotent :
    (∀ (goals : List Goal) (id : String), (deleteGoal goals id).2 = none) ∧
    (∀ (goals : List Goal) (id : String),
      (∀ g ∈ goals, g.id ≠ id) → deleteGoal goals id = (goals, none)) ∧
    (∀ (goals : List Goal) (id : String),
      deleteGoal (deleteGoal goals id).1 id = deleteGoal goals id) := by
  refine ⟨fun goals id => rfl, fun goals id h => ?_, fun goals id => ?_⟩
  · unfold deleteGoal
    rw [List.filter_eq_self.mpr (fun g hg => by simpa using h g hg)]
  · show (List.filter (fun goal => goal.id ≠ id)
        (List.filter (fun goal => goal.id ≠ id) goals), (none : Option String))
      = deleteGoal goals id
    rw [List.filter_eq_self.mpr
      (fun g hg =>
        List.of_mem_filter (p := fun goal : Goal => decide (goal.id ≠ id)) hg)]
    rfl

/-- Witness for C7: deleting an id no goal carries returns the collection
    unchanged. -/
theorem deleteGoal_idempotent_witness :
    deleteGoal [demoGoal90] "missing" = ([demoGoal90], none) :=
  deleteGoal_idempotent.2.1 [demoGoal90] "missing" (by decide)

/-- C8 (amended): updating a present id merges the supplied fields into that
    goal and stamps `updatedAt`; updating an absent id is a silent no-op —
    the collection is unchanged and the error cell is cleared, with no
    NotFound failure. -/
theorem updateGoal_correct :
    (∀ (goals : List Goal) (id : String) (u : UpdateGoalData) (now : ℤ)
      (g : Goal), g ∈ goals → g.id = id →
        mergeGoal g u now ∈ (updateGoal goals id u now).1) ∧
    (∀ (g : Goal) (u : UpdateGoalData) (now : ℤ),
      (mergeGoal g u now).updatedAt = now) ∧
    (∀ (goals : List Goal) (id : String) (u : UpdateGoalData) (now : ℤ),
      (∀ g ∈ goals, g.id ≠ id) → updateGoal goals id u now = (goals, none)) := by
  refine ⟨fun goals id u now g hg hid => ?_, fun g u now => rfl,
    fun goals id u now h => ?_⟩
  · unfold updateGoal
    have := List.mem_map_of_mem
      (fun goal => if goal.id = id then mergeGoal goal u now else goal) hg
    simpa [hid] using this
  · unfold updateGoal
    have hmap : goals.map
        (fun goal => if goal.id = id then mergeGoal goal u now else goal) =
        goals := by
      conv_rhs => rw [← List.map_id goals]
      exact List.map_congr_left (fun g hg => by rw [if_neg (h g hg)]; rfl)
    rw [hmap]

/-- Witness for C8: a concrete present-id update and a concrete absent-id
    no-op. -/
theorem updateGoal_correct_witness :
    mergeGoal demoGoal90 { title := some "Renamed" } 9 ∈
      (updateGoal [demoGoal90] "g1" { title := some "Renamed" } 9).1 ∧
    updateGoal [demoGoal90] "missing" {} 9 = ([demoGoal90], none) :=
  ⟨updateGoal_correct.1 [demoGoal90] "g1" { title := some "Renamed" } 9
     demoGoal90 (List.mem_singleton.mpr rfl) rfl,
   updateGoal_correct.2.2 [demoGoal90] "missing" {} 9 (by decide)⟩

/-- C8 counterexample: updating an id that is absent from the collection
    does not fail — the error cell is `none` (the source's
    `setError(null)`) and the collection is returned unchanged, refuting
    "fails with a NotFound error". -/
theorem updateGoal_notfound_counterexample :
    updateGoal [demoGoal90] "missing" {} 0 = ([demoGoal90], none) := by
  decide

/-- C6: a goal-creation input violating the validation contract is rejected
    with error(s) scoped to the offending field(s) — a 1-character title, a
    description outside 10–200 characters, a non-positive or over-1,000,000
    target, and a deadline not strictly after now each produce an error on
    their own field — no goal is added, and `getTotalSaved` is unchanged. -/
theorem createGoal_validation :
    (∀ (goals : List Goal) (form : GoalFormData) (icon color freshId : String)
      (now : ℤ), validateForm form now ≠ [] →
        createGoal goals form icon color freshId now =
          (goals, some (validateForm form now)) ∧
        getTotalSaved (createGoal goals form icon color freshId now).1 =
          getTotalSaved goals) ∧
    (∀ (form : GoalFormData) (now : ℤ), (strTrim form.title).length = 1 →
      ∃ msg, (GoalField.title, msg) ∈ validateForm form now) ∧
    (∀ (form : GoalFormData) (now : ℤ),
      (strTrim form.description).length < 10 ∨ 200 < (strTrim form.description).length →
      ∃ msg, (GoalField.description, msg) ∈ validateForm form now) ∧
    (∀ (form : GoalFormData) (now : ℤ) (t : ℚ), form.target = some t →
      t ≤ 0 ∨ 1000000 < t →
      ∃ msg, (GoalField.target, msg) ∈ validateForm form now) ∧
    (∀ (form : GoalFormData) (now : ℤ) (d : ℤ), form.deadline = some d →
      d ≤ now → ∃ msg, (GoalField.deadline, msg) ∈ validateForm form now) := by
  refine ⟨fun goals form icon color freshId now h => ?_,
    fun form now h1 => ?_, fun form now h => ?_,
    fun form now t ht h => ?_, fun form now d hd h => ?_⟩
  · have heq : createGoal goals form icon color freshId now =
        (goals, some (validateForm form now)) := by
      unfold createGoal
      simp only [if_neg h]
    exact ⟨heq, by rw [heq]⟩
  · have hne : ¬ (strTrim form.title) = "" := by
      intro he
      rw [he] at h1
      simp at h1
    refine ⟨"Title must be at least 2 characters", ?_⟩
    simp only [validateForm, List.mem_append]
    rw [if_neg hne, if_pos (show (strTrim form.title).length < 2 by omega)]
    simp
  · by_cases he : (strTrim form.description) = ""
    · refine ⟨"Description is required", ?_⟩
      simp only [validateForm, List.mem_append]
      rw [if_pos he]
      simp
    · by_cases hlt : (strTrim form.description).length < 10
      · refine ⟨"Description must be at least 10 characters", ?_⟩
        simp only [validateForm, List.mem_append]
        rw [if_neg he, if_pos hlt]
        simp
      · have h200 : 200 < (strTrim form.description).length := h.resolve_left hlt
        refine ⟨"Description must be less than 200 characters", ?_⟩
        simp only [validateForm, List.mem_append]
        rw [if_neg he, if_neg hlt, if_pos h200]
        simp
  · simp only [validateForm, List.mem_append, ht]
    rcases h with h0 | hbig
    · refine ⟨"Target must be a valid number greater than 0", ?_⟩
      rw [if_pos h0]
      simp
    · refine ⟨"Target must be less than $1,000,000", ?_⟩
      rw [if_neg (not_le.mpr (by linarith : (0 : ℚ) < t)), if_pos hbig]
      simp
  · simp only [validateForm, List.mem_append, hd]
    refine ⟨"Deadline must be in the future", ?_⟩
    rw [if_pos h]
    simp

/-- Witness for C6: the 1-character-title form is rejected with a
    title-scoped error, the collection and total saved are unchanged. -/
theorem createGoal_validation_witness :
    createGoal [demoGoal90] demoBadTitleForm "plane" "accent" "id9" 0 =
      ([demoGoal90], some (validateForm demoBadTitleForm 0)) ∧
    getTotalSaved
      (createGoal [demoGoal90] demoBadTitleForm "plane" "accent" "id9" 0).1 =
      getTotalSaved [demoGoal90] ∧
    ∃ msg, (GoalField.title, msg) ∈ validateForm demoBadTitleForm 0 :=
  ⟨(createGoal_validation.1 [demoGoal90] demoBadTitleForm "plane" "accent"
      "id9" 0 (by decide)).1,
   (createGoal_validation.1 [demoGoal90] demoBadTitleForm "plane" "accent"
      "id9" 0 (by decide)).2,
   createGoal_validation.2.1 demoBadTitleForm 0 (by decide)⟩


/-- Bumping the entry of one category leaves the list of category keys
    unchanged. -/
lemma bump_map_fst (m : List (String × ℚ × ℕ)) (c : String) (a : ℚ) :
    (m.map (fun e => if e.1 = c then (e.1, e.2.1 + a, e.2.2 + 1) else e)).map
      Prod.fst = m.map Prod.fst := by
  rw [List.map_map]
  exact List.map_congr_left (fun e _ => by by_cases h : e.1 = c <;> simp [h])

/-- When the keys are distinct and category `c` is present, bumping it adds
    exactly `a` to the summed amounts. -/
lemma bump_sum (c : String) (a : ℚ) :
    ∀ m : List (String × ℚ × ℕ), (m.map Prod.fst).Nodup →
      m.any (fun e => e.1 = c) = true →
      ((m.map (fun e => if e.1 = c then (e.1, e.2.1 + a, e.2.2 + 1) else e)).map
        (fun e => e.2.1)).sum = (m.map (fun e => e.2.1)).sum + a
  | [], _, hany => by simp at hany
  | e :: m, hnd, hany => by
    simp only [List.map_cons, List.nodup_cons] at hnd
    by_cases h : e.1 = c
    · have htail : m.map (fun e => if e.1 = c then (e.1, e.2.1 + a, e.2.2 + 1)
          else e) = m := by
        conv_rhs => rw [← List.map_id m]
        apply List.map_congr_left
        intro x hx
        have hxc : ¬ x.1 = c := by
          intro hxc
          apply hnd.1
          have hmem : x.1 ∈ List.map Prod.fst m := List.mem_map_of_mem Prod.fst hx
          rw [hxc] at hmem
          rw [h]
          exact hmem
        simp [hxc]
      simp only [List.map_cons, if_pos h, htail, List.sum_cons]
      ring
    · have hany' : m.any (fun e => e.1 = c) = true := by
        simp only [List.any_cons, Bool.or_eq_true, decide_eq_true_eq] at hany
        rcases hany with h1 | h2
        · exact absurd h1 h
        · exact h2
      simp only [List.map_cons, if_neg h, List.sum_cons]
      rw [bump_sum c a m hnd.2 hany']
      ring

/-- Bumping preserves positivity of the per-category transaction counts. -/
lemma bump_counts (c : String) (a : ℚ) (m : List (String × ℚ × ℕ))
    (hc : ∀ e ∈ m, 0 < e.2.2) :
    ∀ e' ∈ m.map (fun e => if e.1 = c then (e.1, e.2.1 + a, e.2.2 + 1) else e),
      0 < e'.2.2 := by
  intro e' he'
  obtain ⟨e, he, rfl⟩ := List.mem_map.mp he'
  by_cases h : e.1 = c
  · simp [h]
  · simp only [if_neg h]
    exact hc e he

/-- The category fold keeps the keys distinct, keeps the summed amounts
    equal to the accumulated expense total, and keeps every per-category
    transaction count positive. -/
lemma catFold_go_inv :
    ∀ (ts : List Transaction) (acc : CatAcc),
      ((acc.categoryMap.map Prod.fst).Nodup) →
      ((acc.categoryMap.map (fun e => e.2.1)).sum = acc.totalExpense) →
      (∀ e ∈ acc.categoryMap, 0 < e.2.2) →
      ((ts.foldl catStep acc).categoryMap.map Prod.fst).Nodup ∧
      ((ts.foldl catStep acc).categoryMap.map (fun e => e.2.1)).sum =
        (ts.foldl catStep acc).totalExpense ∧
      (∀ e ∈ (ts.foldl catStep acc).categoryMap, 0 < e.2.2)
  | [], acc, h1, h2, h3 => ⟨h1, h2, h3⟩
  | t :: ts, acc, h1, h2, h3 => by
    rw [List.foldl_cons]
    by_cases hty : t.type = TxType.expense
    · by_cases hany : acc.categoryMap.any (fun e => e.1 = t.category) = true
      · have hm : (catStep acc t).categoryMap =
            acc.categoryMap.map (fun e =>
              if e.1 = t.category then (e.1, e.2.1 + t.amount, e.2.2 + 1)
              else e) := by
          simp [catStep, hty, hany]
        have hte : (catStep acc t).totalExpense =
            acc.totalExpense + t.amount := by
          simp [catStep, hty, hany]
        refine catFold_go_inv ts _ ?_ ?_ ?_
        · rw [hm, bump_map_fst]
          exact h1
        · rw [hm, hte, bump_sum t.category t.amount acc.categoryMap h1 hany, h2]
        · rw [hm]
          exact bump_counts t.category t.amount acc.categoryMap h3
      · have hm : (catStep acc t).categoryMap =
            acc.categoryMap ++ [(t.category, t.amount, 1)] := by
          simp [catStep, hty, hany]
        have hte : (catStep acc t).totalExpense =
            acc.totalExpense + t.amount := by
          simp [catStep, hty, hany]
        have hnotin : t.category ∉ acc.categoryMap.map Prod.fst := by
          intro hmem
          obtain ⟨e, he, hec⟩ := List.mem_map.mp hmem
          exact hany (List.any_eq_true.mpr ⟨e, he, by simp [hec]⟩)
        refine catFold_go_inv ts _ ?_ ?_ ?_
        · rw [hm]
          simp only [List.map_append, List.map_cons, List.map_nil,
            List.nodup_append]
          refine ⟨h1, List.nodup_singleton _, ?_⟩
          intro x hx hxb
          rw [List.mem_singleton] at hxb
          exact hnotin (hxb ▸ hx)
        · rw [hm, hte]
          simp [h2]
        · rw [hm]
          intro e he
          rcases List.mem_append.mp he with he | he
          · exact h3 e he
          · rw [List.mem_singleton] at he
            simp [he]
    · have hm : (catStep acc t).categoryMap = acc.categoryMap := by
        simp [catStep, hty]
      have hte : (catStep acc t).totalExpense = acc.totalExpense := by
        simp [catStep, hty]
      refine catFold_go_inv ts _ ?_ ?_ ?_
      · rw [hm]
        exact h1
      · rw [hm, hte]
        exact h2
      · rw [hm]
        exact h3

/-- The accumulated expense total of the category fold is the expense sum. -/
lemma catFold_go_totalExpense :
    ∀ (ts : List Transaction) (acc : CatAcc),
      (ts.foldl catStep acc).totalExpense = acc.totalExpense + expenseSum ts
  | [], acc => by simp [expenseSum]
  | t :: ts, acc => by
    rw [List.foldl_cons, catFold_go_totalExpense ts]
    by_cases hty : t.type = TxType.expense <;>
      by_cases hany : acc.categoryMap.any (fun e => e.1 = t.category) = true <;>
      simp [catStep, hty, hany, expenseSum, List.filter_cons] <;> ring

/-- Pulling the common divisor and factor out of a summed map. -/
lemma sum_map_div_mul (m : List (String × ℚ × ℕ)) (T : ℚ) :
    (m.map (fun e => e.2.1 / T * 100)).sum =
      (m.map (fun e => e.2.1)).sum / T * 100 := by
  induction m with
  | nil => simp
  | cons e m ih =>
    simp only [List.map_cons, List.sum_cons, ih]
    ring

/-- The two category-relevant accumulator fields of the fold do not depend
    on the accumulated income. -/
lemma catFold_go_agnostic :
    ∀ (ts : List Transaction) (acc acc' : CatAcc),
      acc.categoryMap = acc'.categoryMap →
      acc.totalExpense = acc'.totalExpense →
      (ts.foldl catStep acc).categoryMap =
        (ts.foldl catStep acc').categoryMap ∧
      (ts.foldl catStep acc).totalExpense =
        (ts.foldl catStep acc').totalExpense
  | [], acc, acc', hm, he => ⟨hm, he⟩
  | t :: ts, acc, acc', hm, he => by
    rw [List.foldl_cons, List.foldl_cons]
    have hcm : (catStep acc t).categoryMap = (catStep acc' t).categoryMap := by
      unfold catStep
      rw [hm]
      by_cases hty : t.type = TxType.expense <;> simp [hty]
    have hce : (catStep acc t).totalExpense = (catStep acc' t).totalExpense := by
      unfold catStep
      rw [hm, he]
      by_cases hty : t.type = TxType.expense <;> simp [hty]
    exact catFold_go_agnostic ts _ _ hcm hce

/-- Income-type transactions contribute nothing to the category map or the
    expense total: folding over the expense-filtered list agrees with the
    full fold on those two fields. -/
lemma catFold_go_filter :
    ∀ (ts : List Transaction) (acc : CatAcc),
      ((ts.filter (fun t => t.type = TxType.expense)).foldl
        catStep acc).categoryMap = (ts.foldl catStep acc).categoryMap ∧
      ((ts.filter (fun t => t.type = TxType.expense)).foldl
        catStep acc).totalExpense = (ts.foldl catStep acc).totalExpense
  | [], acc => ⟨rfl, rfl⟩
  | t :: ts, acc => by
    by_cases hty : t.type = TxType.expense
    · rw [List.filter_cons_of_pos (by simp [hty]), List.foldl_cons,
        List.foldl_cons]
      exact catFold_go_filter ts (catStep acc t)
    · rw [List.filter_cons_of_neg (by simp [hty]), List.foldl_cons]
      have hagn := catFold_go_agnostic ts acc (catStep acc t)
        (by simp [catStep, hty]) (by simp [catStep, hty])
      exact ⟨(catFold_go_filter ts acc).1.trans hagn.1,
        (catFold_go_filter ts acc).2.trans hagn.2⟩

/-- C3: over a non-empty expense window (all amounts positive, at least one
    expense), every category row's percentage is its amount divided by the
    window's expense total times 100, the percentages sum to exactly 100,
    every listed category has a positive transaction count, and the
    breakdown only depends on the expense-type transactions. -/
theorem categoryBreakdown_correct (ts : List Transaction)
    (hpos : ∀ t ∈ ts, 0 < t.amount)
    (hex : ∃ t ∈ ts, t.type = TxType.expense) :
    ((categoryData ts).map (fun r => r.percentage)).sum = 100 ∧
    (∀ r ∈ categoryData ts, r.percentage = r.amount / expenseSum ts * 100) ∧
    (∀ r ∈ categoryData ts, 0 < r.transactions) ∧
    categoryData ts =
      categoryData (ts.filter (fun t => t.type = TxType.expense)) := by
  obtain ⟨t0, ht0, hty0⟩ := hex
  have htot : 0 < expenseSum ts := by
    apply List.sum_pos
    · intro x hx
      obtain ⟨u, hu, rfl⟩ := List.mem_map.mp hx
      exact hpos u (List.mem_of_mem_filter hu)
    · intro hnil
      rw [List.map_eq_nil_iff] at hnil
      have ht0f : t0 ∈ ts.filter (fun t => t.type = TxType.expense) :=
        List.mem_filter.mpr ⟨ht0, by simp [hty0]⟩
      rw [hnil] at ht0f
      exact absurd ht0f (List.not_mem_nil t0)
  have hinv := catFold_go_inv ts
    { categoryMap := [], totalIncome := 0, totalExpense := 0 }
    (by simp) (by simp) (by simp)
  have hnodup : ((catFold ts).categoryMap.map Prod.fst).Nodup := hinv.1
  have hsum : ((catFold ts).categoryMap.map (fun e => e.2.1)).sum =
      (catFold ts).totalExpense := hinv.2.1
  have hcounts : ∀ e ∈ (catFold ts).categoryMap, 0 < e.2.2 := hinv.2.2
  have hTE : (catFold ts).totalExpense = expenseSum ts :=
    (catFold_go_totalExpense ts
      { categoryMap := [], totalIncome := 0, totalExpense := 0 }).trans
      (zero_add _)
  have hTEpos : 0 < (catFold ts).totalExpense := hTE ▸ htot
  refine ⟨?_, ?_, ?_, ?_⟩
  · have hperm : (categoryData ts).Perm
        (((catFold ts).categoryMap).map (catRow (catFold ts).totalExpense)) :=
      List.mergeSort_perm _ _
    rw [(hperm.map (fun r => r.percentage)).sum_eq, List.map_map]
    have hrow : ((catFold ts).categoryMap).map
        ((fun r => r.percentage) ∘ catRow (catFold ts).totalExpense) =
        ((catFold ts).categoryMap).map (fun e =>
          e.2.1 / (catFold ts).totalExpense * 100) :=
      List.map_congr_left (fun e _ => by
        simp [catRow, Function.comp, if_pos hTEpos])
    rw [hrow, sum_map_div_mul, hsum, div_self (ne_of_gt hTEpos)]
    norm_num
  · intro r hr
    simp only [categoryData, List.mem_mergeSort] at hr
    obtain ⟨e, he, rfl⟩ := List.mem_map.mp hr
    simp only [catRow, if_pos hTEpos]
    rw [hTE]
  · intro r hr
    simp only [categoryData, List.mem_mergeSort] at hr
    obtain ⟨e, he, rfl⟩ := List.mem_map.mp hr
    exact hcounts e he
  · have hf := catFold_go_filter ts
      { categoryMap := [], totalIncome := 0, totalExpense := 0 }
    simp only [categoryData, catFold]
    rw [hf.1, hf.2]

/-- Witness for C3 at the sample window: all amounts positive, an expense
    exists, and the percentages sum to exactly 100. -/
theorem categoryBreakdown_correct_witness :
    (∀ t ∈ demoWindow, 0 < t.amount) ∧
    (∃ t ∈ demoWindow, t.type = TxType.expense) ∧
    ((categoryData demoWindow).map (fun r => r.percentage)).sum = 100 :=
  ⟨by decide, by decide,
   (categoryBreakdown_correct demoWindow (by decide) (by decide)).1⟩

/-- The streak loop over an empty transaction list never increments. -/
lemma streakGo_nil :
    ∀ (fuel : ℕ) (d : ℤ) (first : Bool) (acc : ℕ),
      streakGo [] d first fuel acc = acc
  | 0, d, first, acc => rfl
  | fuel + 1, d, first, acc => by
    unfold streakGo
    simp only [hasTxOnDay, List.any_nil, Bool.false_eq_true, if_false]
    cases first
    · simp
    · simp [streakGo_nil fuel (d - 1) false acc]

/-- The streak of an empty transaction list is 0. -/
lemma computeStreak_nil (now : ℤ) : computeStreak [] now = 0 :=
  streakGo_nil 30 (dayOf now) true 0

/-- C9 (amended): on the empty transaction collection the engine produces
    the snapshot without error, with balance 0, monthly income/expenses/net
    0, savings rate 0, streak 0, achievement progress 0 (nothing unlocked),
    no recent transactions, empty category breakdown, empty monthly trend
    series and all-zero analytics totals — but the level is 1, not 0, since
    the level formula takes a minimum of 1. -/
theorem emptySnapshot_correct (savingsGoals : List SavingsGoalData)
    (now : ℤ) :
    (calculateSummary [] savingsGoals now).totalIncome = 0 ∧
    (calculateSummary [] savingsGoals now).totalExpenses = 0 ∧
    (calculateSummary [] savingsGoals now).netIncome = 0 ∧
    (calculateSummary [] savingsGoals now).savingsRate = 0 ∧
    (calculateSummary [] savingsGoals now).balance = 0 ∧
    (calculateSummary [] savingsGoals now).streak = 0 ∧
    (calculateSummary [] savingsGoals now).level = 1 ∧
    (calculateSummary [] savingsGoals now).achievements.map
      (fun a => a.progress) = [0, 0, 0] ∧
    (calculateSummary [] savingsGoals now).achievements.map
      (fun a => a.unlocked) = [false, false, false] ∧
    (calculateSummary [] savingsGoals now).recentTransactions = [] ∧
    (calculateSummary [] savingsGoals now).totalTransactions = 0 ∧
    (calculateAnalytics []).categoryData = [] ∧
    (calculateAnalytics []).monthlyData = [] ∧
    (calculateAnalytics []).totalIncome = 0 ∧
    (calculateAnalytics []).totalExpense = 0 ∧
    (calculateAnalytics []).savings = 0 ∧
    (calculateAnalytics []).savingsRate = 0 := by
  refine ⟨rfl, rfl, ?_, ?_, rfl, computeStreak_nil now, rfl, ?_, ?_, ?_, rfl,
    ?_, ?_, rfl, rfl, ?_, ?_⟩
  · norm_num [calculateSummary]
  · norm_num [calculateSummary, computeSavingsRate]
  · simp [calculateSummary, computeStreak_nil, computeBalance]
  · simp [calculateSummary, computeStreak_nil, computeBalance]
  · simp [calculateSummary]
  · simp [calculateAnalytics, categoryData, catFold]
  · simp [calculateAnalytics, monthlyData, monthlyFold]
  · norm_num [calculateAnalytics, catFold]
  · norm_num [calculateAnalytics, catFold, computeSavingsRate]

/-- C9 counterexample: on the empty collection the level is 1, not 0 — the
    source computes `Math.max(1, Math.floor(length / 10))`, so the snapshot
    is not all-zero. -/
theorem emptySnapshot_level_counterexample :
    (calculateSummary [] [] 0).level = 1 ∧
    (calculateSummary [] [] 0).level ≠ 0 := by
  exact ⟨rfl, by decide⟩

end FinTrack
